import Mathlib

/-!
Verification of the demographic metric classification and aggregation engine
of the Uttarakhand dashboard.  The definitions below are a shallow embedding
of the TypeScript source: `src/src/App.tsx` (the current revision) together
with the two earlier revisions `src/unnamed/part_000` (seeded synthetic data)
and `src/unnamed/part_001` (four selection dimensions, alternative literacy
palette).  JavaScript numbers are modelled as rationals; the special values
produced by empty aggregations are modelled explicitly by `JsNum`; fallible
lookups return `Option`.
-/

namespace Dashboard

/-- The three metrics of the dashboard (the `selectedMetric` union type). -/
inductive Metric
  | literacy
  | income
  | population
deriving DecidableEq

/-- One metric vector: interface `MetricValues` of App.tsx. -/
structure MetricValues where
  literacy : ℚ
  income : ℚ
  population : ℚ
deriving DecidableEq

/-- Field access `values[selectedMetric]`. -/
def MetricValues.get (mv : MetricValues) : Metric → ℚ
  | .literacy => mv.literacy
  | .income => mv.income
  | .population => mv.population

/-- `GenderKey` of App.tsx. -/
inductive Gender
  | all
  | male
  | female
  | other
deriving DecidableEq, Fintype

/-- `AgeKey` of App.tsx. -/
inductive Age
  | all
  | age0_18
  | age19_35
  | age36_50
  | age51_plus
deriving DecidableEq, Fintype

/-- `CasteKey` of part_001 (the social-category dimension). -/
inductive Caste
  | all
  | obc
  | sc
  | st
  | oc
deriving DecidableEq

/-- `SECKey` of part_001 (the economic-class dimension). -/
inductive SEC
  | all
  | bpl
  | low
  | middle
  | high
  | affluent
deriving DecidableEq

/-- The string literal of each gender key. -/
def Gender.str : Gender → String
  | .all => "all"
  | .male => "male"
  | .female => "female"
  | .other => "other"

/-- The string literal of each age key. -/
def Age.str : Age → String
  | .all => "all"
  | .age0_18 => "age0_18"
  | .age19_35 => "age19_35"
  | .age36_50 => "age36_50"
  | .age51_plus => "age51_plus"

/-- The four selection dimensions held in component state
(`selectedGender`, `selectedAge`, `selectedCaste`, `selectedSEC` of part_001). -/
structure Selection where
  gender : Gender
  age : Age
  caste : Caste
  sec : SEC
deriving DecidableEq

/-- The Demographic Key Resolver: the `demographicKey` memo of App.tsx and
part_001, literally the template string of gender and age. -/
def demographicKey (s : Selection) : String :=
  s.gender.str ++ "_" ++ s.age.str

/-- JavaScript object lookup `obj[key]` on a string-keyed record, modelled as
an association list in property-insertion order. -/
def objGet (l : List (String × α)) (k : String) : Option α :=
  (l.find? (fun p => p.1 == k)).map (·.2)

/-- JavaScript assignment `obj[key] = v`: updates in place when the key is
present, otherwise appends a new property. -/
def objSet (l : List (String × α)) (k : String) (v : α) : List (String × α) :=
  match l with
  | [] => [(k, v)]
  | (k', v') :: rest =>
    if k' == k then (k', v) :: rest else (k', v') :: objSet rest k v

/-- Per-area table: demographic key to metric vector (`AreaMetricData`). -/
abbrev AreaData := List (String × MetricValues)

/-- The Metric Repository: area id to per-area table (`metricData`). -/
abbrev MetricTable := List (String × AreaData)

/-- A non-finite-aware JavaScript number: results of empty aggregations. -/
inductive JsNum
  | num (q : ℚ)
  | nan
  | inf
  | negInf
deriving DecidableEq

/-- `Number(x.toFixed(2))`: rounding to two decimal digits (half up). -/
def round2 (x : ℚ) : ℚ := (⌊x * 100 + 1 / 2⌋ : ℚ) / 100

/-- `Number(x.toFixed(1))`: rounding to one decimal digit (half up). -/
def round1 (x : ℚ) : ℚ := (⌊x * 10 + 1 / 2⌋ : ℚ) / 10

/-- `Math.floor` lifted to JavaScript numbers (floor of NaN is NaN). -/
def jsFloor : JsNum → JsNum
  | .num q => .num ⌊q⌋
  | x => x

/-- `values.reduce((sum, val) => sum + val, 0) / values.length`, then
`Number(average.toFixed(2))`; the empty list gives `0 / 0`, that is NaN. -/
def jsAvg (l : List ℚ) : JsNum :=
  match l with
  | [] => .nan
  | _ => .num (round2 (l.sum / l.length))

/-- `Math.min(...values)`: +Infinity on the empty spread. -/
def jsMin (l : List ℚ) : JsNum :=
  match l with
  | [] => .inf
  | v :: vs => .num (vs.foldl min v)

/-- `Math.max(...values)`: -Infinity on the empty spread. -/
def jsMax (l : List ℚ) : JsNum :=
  match l with
  | [] => .negInf
  | v :: vs => .num (vs.foldl max v)

/-- `Object.values(metricData).map(area => area[demographicKey][selectedMetric])`.
Accessing `[selectedMetric]` on an undefined `area[demographicKey]` throws, so
the gather is `none` as soon as one area lacks the key. -/
def gatherValues (md : MetricTable) (key : String) (m : Metric) :
    Option (List ℚ) :=
  md.mapM (fun p => (objGet p.2 key).map (fun mv => mv.get m))

/-- The KPI result record of App.tsx. -/
structure Kpis where
  average : JsNum
  min : JsNum
  max : JsNum
deriving DecidableEq

/-- The KPI Aggregator: the `kpis` memo of App.tsx.  `none` models the thrown
lookup error on a missing demographic key. -/
def kpis (md : MetricTable) (key : String) (m : Metric) : Option Kpis :=
  (gatherValues md key m).map (fun values =>
    let avg0 := jsAvg values
    let avg := if m = .population then jsFloor avg0 else avg0
    { average := avg, min := jsMin values, max := jsMax values })

/-- One bracket of a bracket table; `max = none` stands for Infinity. -/
structure Bracket where
  label : String
  min : ℚ
  max : Option ℚ
  color : String
deriving DecidableEq

/-- The bracket tables of App.tsx (the `brackets` literal). -/
def brackets : Metric → List Bracket
  | .literacy =>
    [ ⟨"<70%", 0, some 70, "#DBEAFE"⟩,
      ⟨"70-80%", 70, some 80, "#93C5FD"⟩,
      ⟨"80-90%", 80, some 90, "#3B82F6"⟩,
      ⟨">=90%", 90, some 100, "#1E3A8A"⟩ ]
  | .income =>
    [ ⟨"<30,000", 0, some 30000, "#BBF7D0"⟩,
      ⟨"30,000-50,000", 30000, some 50000, "#4ADE80"⟩,
      ⟨"50,000-80,000", 50000, some 80000, "#16A34A"⟩,
      ⟨">=80,000", 80000, none, "#14532D"⟩ ]
  | .population =>
    [ ⟨"<100,000", 0, some 100000, "#FEE2E2"⟩,
      ⟨"100,000-200,000", 100000, some 200000, "#FDBA74"⟩,
      ⟨"200,000-500,000", 200000, some 500000, "#F97316"⟩,
      ⟨">=500,000", 500000, none, "#7C2D12"⟩ ]

/-- The bracket predicate of `pieData`:
`value >= b.min && (b.max === Infinity ? true : value < b.max)`. -/
def Bracket.matches (b : Bracket) (v : ℚ) : Bool :=
  decide (b.min ≤ v) &&
    (match b.max with
     | none => true
     | some M => decide (v < M))

/-- `currentBrackets.find(b => ...)`: the Bracket Classifier on one value. -/
def findBracket (m : Metric) (v : ℚ) : Option Bracket :=
  (brackets m).find? (fun b => b.matches v)

/-- The Color Mapper `getColor` of App.tsx (threshold chain). -/
def getColor (m : Metric) (v : ℚ) : String :=
  match m with
  | .literacy =>
    if 90 ≤ v then "#1E3A8A"
    else if 80 ≤ v then "#3B82F6"
    else if 70 ≤ v then "#93C5FD"
    else "#DBEAFE"
  | .income =>
    if 80000 ≤ v then "#14532D"
    else if 50000 ≤ v then "#16A34A"
    else if 30000 ≤ v then "#4ADE80"
    else "#BBF7D0"
  | .population =>
    if 500000 ≤ v then "#7C2D12"
    else if 200000 ≤ v then "#F97316"
    else if 100000 ≤ v then "#FDBA74"
    else "#FEE2E2"

/-- The Color Mapper `getColor` of the part_001 revision (purple literacy
palette; income and population as in App.tsx). -/
def getColorP1 (m : Metric) (v : ℚ) : String :=
  match m with
  | .literacy =>
    if 90 ≤ v then "#9B72CC"
    else if 80 ≤ v then "#BC9AE6"
    else if 70 ≤ v then "#DCC6F6"
    else "#F3E8FF"
  | .income => getColor .income v
  | .population => getColor .population v

/-- The bracket tables of the part_001 revision (literacy colors differ from
App.tsx; income and population agree). -/
def bracketsP1 : Metric → List Bracket
  | .literacy =>
    [ ⟨"<70%", 0, some 70, "#E6E6FA"⟩,
      ⟨"70-80%", 70, some 80, "#BFA2DB"⟩,
      ⟨"80-90%", 80, some 90, "#3B82F6"⟩,
      ⟨">=90%", 90, some 100, "#1E3A8A"⟩ ]
  | m => brackets m

/-- The classifier of part_001 on one value, over its own bracket table. -/
def findBracketP1 (m : Metric) (v : ℚ) : Option Bracket :=
  (bracketsP1 m).find? (fun b => b.matches v)

/-- One surviving GeoJSON feature as the core sees it: stable id and name. -/
structure Feature where
  id : String
  name : String
deriving DecidableEq

/-- `feature.properties.name || "Unknown Area"` (the empty string is falsy). -/
def Feature.displayName (f : Feature) : String :=
  if f.name = "" then "Unknown Area" else f.name

/-- `metricData[id]?.[demographicKey]?.[selectedMetric]`: optional chain. -/
def featureValue (md : MetricTable) (key : String) (m : Metric)
    (f : Feature) : Option ℚ :=
  ((objGet md f.id).bind (fun ad => objGet ad key)).map (fun mv => mv.get m)

/-- The counting loop of the `pieData` memo: one counter per bracket,
incremented at the index of the bracket found for each defined value. -/
def pieCounts (features : List Feature) (md : MetricTable) (key : String)
    (m : Metric) : List ℕ :=
  features.foldl (fun counts f =>
    match featureValue md key m f with
    | none => counts
    | some v =>
      match (brackets m).findIdx? (fun b => b.matches v) with
      | some i => counts.set i (counts.getD i 0 + 1)
      | none => counts) (List.replicate (brackets m).length 0)

/-- The `pieData` memo of App.tsx: label, count and color per bracket,
in bracket-table order. -/
def pieData (features : List Feature) (md : MetricTable) (key : String)
    (m : Metric) : List (String × ℕ × String) :=
  ((brackets m).zip (pieCounts features md key m)).map
    (fun p => (p.1.label, p.2, p.1.color))

/-- The pre-sort stage of the `barData` memo: map each feature to
`{ name, value }` when its value is defined, dropping the rest
(`.filter(item => item !== null)`). -/
def presentEntries (features : List Feature) (md : MetricTable) (key : String)
    (m : Metric) : List (String × ℚ) :=
  features.filterMap (fun f =>
    (featureValue md key m f).map (fun v => (f.displayName, v)))

/-- The Rank Builder: `data.sort((a, b) => b.value - a.value)`.  JavaScript
sort is a stable sort; the comparator places `a` before `b` exactly when
`b.value <= a.value`, with equal values kept in input order. -/
def barData (features : List Feature) (md : MetricTable) (key : String)
    (m : Metric) : List (String × ℚ) :=
  (presentEntries features md key m).mergeSort (fun a b => decide (b.2 ≤ a.2))

/-- `Math.random() * (max - min) + min` of App.tsx, with the `Math.random()`
draw `r` made an explicit oracle argument. -/
def getRandom (r mn mx : ℚ) : ℚ :=
  r * (mx - mn) + mn

/-- One synthetic metric vector of App.tsx, from three `Math.random()` draws:
`{ literacy: Number(getRandom(60, 95).toFixed(1)),
   income: Math.floor(getRandom(20000, 100000)),
   population: Math.floor(getRandom(5000, 1000000)) }`. -/
def mkRandomVec (r1 r2 r3 : ℚ) : MetricValues :=
  { literacy := round1 (getRandom r1 60 95),
    income := (⌊getRandom r2 20000 100000⌋ : ℚ),
    population := (⌊getRandom r3 5000 1000000⌋ : ℚ) }

/-- `pseudoRandom` of part_000, seeded:
`min + (((seed * 9301 + 49297) % 233280) / 233280) * (max - min)`
(the source parameter order is `(max, min)`). -/
def pseudoRandom (mx mn : ℚ) (seed : ℕ) : ℚ :=
  mn + (((seed * 9301 + 49297) % 233280 : ℕ) : ℚ) / 233280 * (mx - mn)

/-- One synthetic metric vector of part_000 at area index `index`, using the
per-area seed `index * 17 + 23`. -/
def mkVec (index : ℕ) : MetricValues :=
  { literacy := round1 (pseudoRandom 95 60 (index * 17 + 23)),
    income := (⌊pseudoRandom 100000 20000 (index * 17 + 23)⌋ : ℚ),
    population := (⌊pseudoRandom 1000000 5000 (index * 17 + 23)⌋ : ℚ) }

/-- The seeded generation loop of part_000:
`areas.forEach((areaId, index) => { ... dataMap[areaId] = {...} })`. -/
def generateSeeded (areas : List String) : List (String × MetricValues) :=
  areas.enum.foldl (fun dm p => objSet dm p.2 (mkVec p.1)) []

/-- The diagnostic of part_000: ids of features with no generated entry
(`filtered.features.filter(f => !dataMap[f.properties["@id"]])`). -/
def missingIds (features : List Feature) : List String :=
  (features.filter (fun f =>
    (objGet (generateSeeded (features.map (·.id))) f.id).isNone)).map (·.id)

/-- The range bounds claimed for every synthetic metric vector. -/
def InRange (mv : MetricValues) : Prop :=
  60 ≤ mv.literacy ∧ mv.literacy ≤ 95 ∧ mv.literacy < 100 ∧
  (∃ n : ℤ, mv.income = (n : ℚ) ∧ 20000 ≤ n ∧ n < 100000) ∧
  (∃ n : ℤ, mv.population = (n : ℚ) ∧ 5000 ≤ n ∧ n < 1000000) ∧
  0 ≤ mv.literacy ∧ 0 ≤ mv.income ∧ 0 ≤ mv.population

/-- The 20-key composition is injective on the gender and age dimensions. -/
lemma key_str_inj : ∀ (g1 g2 : Gender) (a1 a2 : Age),
    g1.str ++ "_" ++ a1.str = g2.str ++ "_" ++ a2.str → g1 = g2 ∧ a1 = a2 := by
  decide

/-- C1 counterexample: two selections that differ in the social category
(obc versus sc) produce byte-for-byte the same demographic key, so the
resolver does not incorporate all four dimensions. -/
theorem demographicKey_caste_collision :
    demographicKey ⟨.male, .all, .obc, .all⟩ =
      demographicKey ⟨.male, .all, .sc, .all⟩ ∧
    (⟨.male, .all, .obc, .all⟩ : Selection) ≠ ⟨.male, .all, .sc, .all⟩ ∧
    Caste.obc ≠ Caste.sc := by
  exact ⟨rfl, by decide, by decide⟩

/-- C1 (amended): the demographic key incorporates exactly the gender and age
dimensions: two selections yield the same key if and only if they agree on
gender and age; in particular the key ignores social category and economic
class, and equal selections always reproduce the same key. -/
theorem demographicKey_eq_iff (s1 s2 : Selection) :
    demographicKey s1 = demographicKey s2 ↔
      s1.gender = s2.gender ∧ s1.age = s2.age := by
  constructor
  · intro h
    exact key_str_inj s1.gender s2.gender s1.age s2.age h
  · rintro ⟨hg, ha⟩
    simp [demographicKey, hg, ha]

/-- Witness for the amended C1 at concrete selections: changing only caste
and economic class leaves the key unchanged. -/
theorem demographicKey_eq_iff_witness :
    demographicKey ⟨.female, .age19_35, .all, .all⟩ =
      demographicKey ⟨.female, .age19_35, .st, .high⟩ :=
  (demographicKey_eq_iff _ _).mpr ⟨rfl, rfl⟩

/-- C5 counterexample: on the empty repository the KPI Aggregator does not
signal any error; it returns NaN as the average, +Infinity as the minimum and
-Infinity as the maximum. -/
theorem kpis_empty_nan :
    kpis [] "all_all" .literacy =
      some { average := .nan, min := .inf, max := .negInf } := rfl

/-- C5 (amended): for the empty area list and every metric, the KPI
Aggregator completes with NaN-like and infinite results instead of signaling
an EmptyInput condition. -/
theorem kpis_empty_eq (key : String) (m : Metric) :
    kpis [] key m = some { average := .nan, min := .inf, max := .negInf } := by
  cases m <;> rfl

/-- Witness for the amended C5 at a concrete key and metric. -/
theorem kpis_empty_eq_witness :
    kpis [] "male_age0_18" .population =
      some { average := .nan, min := .inf, max := .negInf } :=
  kpis_empty_eq "male_age0_18" .population

/-- C6: bracket boundaries are half-open; every shared boundary value of the
three tables matches exactly one bracket, namely the upper one (the bracket
whose lower bound equals the value); in particular income 30000 classifies
into the 30,000-50,000 bracket and income 80000 into the >=80,000 bracket. -/
theorem boundary_upper_bracket :
    (findBracket .income 30000 =
        some ⟨"30,000-50,000", 30000, some 50000, "#4ADE80"⟩ ∧
      (brackets .income).countP (fun b => b.matches 30000) = 1) ∧
    (findBracket .income 50000 =
        some ⟨"50,000-80,000", 50000, some 80000, "#16A34A"⟩ ∧
      (brackets .income).countP (fun b => b.matches 50000) = 1) ∧
    (findBracket .income 80000 =
        some ⟨">=80,000", 80000, none, "#14532D"⟩ ∧
      (brackets .income).countP (fun b => b.matches 80000) = 1) ∧
    (findBracket .literacy 70 =
        some ⟨"70-80%", 70, some 80, "#93C5FD"⟩ ∧
      (brackets .literacy).countP (fun b => b.matches 70) = 1) ∧
    (findBracket .literacy 80 =
        some ⟨"80-90%", 80, some 90, "#3B82F6"⟩ ∧
      (brackets .literacy).countP (fun b => b.matches 80) = 1) ∧
    (findBracket .literacy 90 =
        some ⟨">=90%", 90, some 100, "#1E3A8A"⟩ ∧
      (brackets .literacy).countP (fun b => b.matches 90) = 1) ∧
    (findBracket .population 100000 =
        some ⟨"100,000-200,000", 100000, some 200000, "#FDBA74"⟩ ∧
      (brackets .population).countP (fun b => b.matches 100000) = 1) ∧
    (findBracket .population 200000 =
        some ⟨"200,000-500,000", 200000, some 500000, "#F97316"⟩ ∧
      (brackets .population).countP (fun b => b.matches 200000) = 1) ∧
    (findBracket .population 500000 =
        some ⟨">=500,000", 500000, none, "#7C2D12"⟩ ∧
      (brackets .population).countP (fun b => b.matches 500000) = 1) := by
  decide

/-- C2 counterexample: in the part_001 revision the literacy value 90 is
classified into the bracket colored "#1E3A8A" while the Color Mapper of the
same revision returns "#9B72CC" for it, so the color function and the
bracket table are not extensionally equal. -/
theorem getColorP1_literacy_mismatch :
    findBracketP1 .literacy 90 = some ⟨">=90%", 90, some 100, "#1E3A8A"⟩ ∧
    getColorP1 .literacy 90 = "#9B72CC" ∧
    ("#9B72CC" : String) ≠ "#1E3A8A" := by
  decide

/-- C3 counterexample: the literacy bracket table does not cover
[0, +infinity): its last bracket is bounded above by 100, and the value 100
matches no bracket at all. -/
theorem literacy_brackets_bounded :
    findBracket .literacy 100 = none ∧
    (brackets .literacy).getLast?.map Bracket.max = some (some 100) := by
  decide

/-- C2 (amended): in the App.tsx revision, whenever the Bracket Classifier
assigns a value to a bracket, the Color Mapper returns exactly the color of
that bracket, for every metric; the color function and the bracket table
agree wherever the bracket table is defined. -/
theorem getColor_eq_bracket_color (m : Metric) (v : ℚ) (b : Bracket)
    (h : findBracket m v = some b) : getColor m v = b.color := by
  cases m
  case literacy =>
    by_cases h0 : (0 : ℚ) ≤ v
    · by_cases h70 : v < 70
      · simp [findBracket, brackets, List.find?, Bracket.matches, h0, h70] at h
        rw [← h]
        simp [getColor, show ¬(90 : ℚ) ≤ v by linarith,
          show ¬(80 : ℚ) ≤ v by linarith, show ¬(70 : ℚ) ≤ v by linarith]
      · by_cases h80 : v < 80
        · simp [findBracket, brackets, List.find?, Bracket.matches,
            h0, h70, h80, show (70 : ℚ) ≤ v by linarith] at h
          rw [← h]
          simp [getColor, show ¬(90 : ℚ) ≤ v by linarith,
            show ¬(80 : ℚ) ≤ v by linarith, show (70 : ℚ) ≤ v by linarith]
        · by_cases h90 : v < 90
          · simp [findBracket, brackets, List.find?, Bracket.matches,
              h0, h70, h80, h90, show (80 : ℚ) ≤ v by linarith] at h
            rw [← h]
            simp [getColor, show ¬(90 : ℚ) ≤ v by linarith,
              show (80 : ℚ) ≤ v by linarith]
          · by_cases h100 : v < 100
            · simp [findBracket, brackets, List.find?, Bracket.matches,
                h0, h70, h80, h90, h100, show (90 : ℚ) ≤ v by linarith] at h
              rw [← h]
              simp [getColor, show (90 : ℚ) ≤ v by linarith]
            · simp [findBracket, brackets, List.find?, Bracket.matches,
                h0, h70, h80, h90, h100] at h
    · simp [findBracket, brackets, List.find?, Bracket.matches, h0,
        show ¬(70 : ℚ) ≤ v by linarith, show ¬(80 : ℚ) ≤ v by linarith,
        show ¬(90 : ℚ) ≤ v by linarith] at h
  case income =>
    by_cases h0 : (0 : ℚ) ≤ v
    · by_cases h1 : v < 30000
      · simp [findBracket, brackets, List.find?, Bracket.matches, h0, h1] at h
        rw [← h]
        simp [getColor, show ¬(80000 : ℚ) ≤ v by linarith,
          show ¬(50000 : ℚ) ≤ v by linarith, show ¬(30000 : ℚ) ≤ v by linarith]
      · by_cases h2 : v < 50000
        · simp [findBracket, brackets, List.find?, Bracket.matches,
            h0, h1, h2, show (30000 : ℚ) ≤ v by linarith] at h
          rw [← h]
          simp [getColor, show ¬(80000 : ℚ) ≤ v by linarith,
            show ¬(50000 : ℚ) ≤ v by linarith, show (30000 : ℚ) ≤ v by linarith]
        · by_cases h3 : v < 80000
          · simp [findBracket, brackets, List.find?, Bracket.matches,
              h0, h1, h2, h3, show (50000 : ℚ) ≤ v by linarith] at h
            rw [← h]
            simp [getColor, show ¬(80000 : ℚ) ≤ v by linarith,
              show (50000 : ℚ) ≤ v by linarith]
          · simp [findBracket, brackets, List.find?, Bracket.matches,
              h0, h1, h2, h3, show (80000 : ℚ) ≤ v by linarith] at h
            rw [← h]
            simp [getColor, show (80000 : ℚ) ≤ v by linarith]
    · simp [findBracket, brackets, List.find?, Bracket.matches, h0,
        show ¬(30000 : ℚ) ≤ v by linarith, show ¬(50000 : ℚ) ≤ v by linarith,
        show ¬(80000 : ℚ) ≤ v by linarith] at h
  case population =>
    by_cases h0 : (0 : ℚ) ≤ v
    · by_cases h1 : v < 100000
      · simp [findBracket, brackets, List.find?, Bracket.matches, h0, h1] at h
        rw [← h]
        simp [getColor, show ¬(500000 : ℚ) ≤ v by linarith,
          show ¬(200000 : ℚ) ≤ v by linarith, show ¬(100000 : ℚ) ≤ v by linarith]
      · by_cases h2 : v < 200000
        · simp [findBracket, brackets, List.find?, Bracket.matches,
            h0, h1, h2, show (100000 : ℚ) ≤ v by linarith] at h
          rw [← h]
          simp [getColor, show ¬(500000 : ℚ) ≤ v by linarith,
            show ¬(200000 : ℚ) ≤ v by linarith, show (100000 : ℚ) ≤ v by linarith]
        · by_cases h3 : v < 500000
          · simp [findBracket, brackets, List.find?, Bracket.matches,
              h0, h1, h2, h3, show (200000 : ℚ) ≤ v by linarith] at h
            rw [← h]
            simp [getColor, show ¬(500000 : ℚ) ≤ v by linarith,
              show (200000 : ℚ) ≤ v by linarith]
          · simp [findBracket, brackets, List.find?, Bracket.matches,
              h0, h1, h2, h3, show (500000 : ℚ) ≤ v by linarith] at h
            rw [← h]
            simp [getColor, show (500000 : ℚ) ≤ v by linarith]
    · simp [findBracket, brackets, List.find?, Bracket.matches, h0,
        show ¬(100000 : ℚ) ≤ v by linarith, show ¬(200000 : ℚ) ≤ v by linarith,
        show ¬(500000 : ℚ) ≤ v by linarith] at h

/-- Witness for the amended C2 at metric literacy and value 75: the
classifier assigns the 70-80% bracket and getColor returns its color. -/
theorem getColor_eq_bracket_color_witness :
    getColor .literacy 75 = "#93C5FD" :=
  getColor_eq_bracket_color .literacy 75
    ⟨"70-80%", 70, some 80, "#93C5FD"⟩ (by decide)

/-- Every non-negative income value matches exactly one income bracket. -/
lemma countP_income (v : ℚ) (h0 : 0 ≤ v) :
    (brackets .income).countP (fun b => b.matches v) = 1 := by
  rcases lt_or_le v 30000 with h1 | h1
  · simp [brackets, Bracket.matches, List.countP_cons, h0, h1,
      show ¬(30000 : ℚ) ≤ v by linarith, show ¬(50000 : ℚ) ≤ v by linarith,
      show ¬(80000 : ℚ) ≤ v by linarith]
  · rcases lt_or_le v 50000 with h2 | h2
    · simp [brackets, Bracket.matches, List.countP_cons, h0, h1, h2,
        show ¬v < 30000 by linarith, show ¬(50000 : ℚ) ≤ v by linarith,
        show ¬(80000 : ℚ) ≤ v by linarith]
    · rcases lt_or_le v 80000 with h3 | h3
      · simp [brackets, Bracket.matches, List.countP_cons, h0, h2, h3,
          show ¬v < 30000 by linarith, show ¬v < 50000 by linarith,
          show ¬(80000 : ℚ) ≤ v by linarith]
      · simp [brackets, Bracket.matches, List.countP_cons, h0, h3,
          show ¬v < 30000 by linarith, show ¬v < 50000 by linarith,
          show ¬v < 80000 by linarith]

/-- Every non-negative population value matches exactly one population
bracket. -/
lemma countP_population (v : ℚ) (h0 : 0 ≤ v) :
    (brackets .population).countP (fun b => b.matches v) = 1 := by
  rcases lt_or_le v 100000 with h1 | h1
  · simp [brackets, Bracket.matches, List.countP_cons, h0, h1,
      show ¬(100000 : ℚ) ≤ v by linarith, show ¬(200000 : ℚ) ≤ v by linarith,
      show ¬(500000 : ℚ) ≤ v by linarith]
  · rcases lt_or_le v 200000 with h2 | h2
    · simp [brackets, Bracket.matches, List.countP_cons, h0, h1, h2,
        show ¬v < 100000 by linarith, show ¬(200000 : ℚ) ≤ v by linarith,
        show ¬(500000 : ℚ) ≤ v by linarith]
    · rcases lt_or_le v 500000 with h3 | h3
      · simp [brackets, Bracket.matches, List.countP_cons, h0, h2, h3,
          show ¬v < 100000 by linarith, show ¬v < 200000 by linarith,
          show ¬(500000 : ℚ) ≤ v by linarith]
      · simp [brackets, Bracket.matches, List.countP_cons, h0, h3,
          show ¬v < 100000 by linarith, show ¬v < 200000 by linarith,
          show ¬v < 500000 by linarith]

/-- Every literacy value in [0, 100) matches exactly one literacy bracket. -/
lemma countP_literacy (v : ℚ) (h0 : 0 ≤ v) (h100 : v < 100) :
    (brackets .literacy).countP (fun b => b.matches v) = 1 := by
  rcases lt_or_le v 70 with h1 | h1
  · simp [brackets, Bracket.matches, List.countP_cons, h0, h1,
      show ¬(70 : ℚ) ≤ v by linarith, show ¬(80 : ℚ) ≤ v by linarith,
      show ¬(90 : ℚ) ≤ v by linarith]
  · rcases lt_or_le v 80 with h2 | h2
    · simp [brackets, Bracket.matches, List.countP_cons, h0, h1, h2,
        show ¬v < 70 by linarith, show ¬(80 : ℚ) ≤ v by linarith,
        show ¬(90 : ℚ) ≤ v by linarith]
    · rcases lt_or_le v 90 with h3 | h3
      · simp [brackets, Bracket.matches, List.countP_cons, h0, h2, h3,
          show ¬v < 70 by linarith, show ¬v < 80 by linarith,
          show ¬(90 : ℚ) ≤ v by linarith]
      · simp [brackets, Bracket.matches, List.countP_cons, h0, h3, h100,
          show ¬v < 70 by linarith, show ¬v < 80 by linarith,
          show ¬v < 90 by linarith]

/-- C3 (amended): every bracket table is an ordered sequence of contiguous,
non-overlapping half-open brackets starting at 0; the income and population
tables cover [0, +infinity) with an unbounded last bracket, so every
non-negative value matches exactly one of their brackets; the literacy table
instead covers only [0, 100): its last bracket is bounded above by 100, and
exactly-one-match holds for literacy only on [0, 100). -/
theorem brackets_partition :
    (∀ m : Metric, (brackets m).Chain' (fun b1 b2 => b1.max = some b2.min) ∧
      (brackets m).head?.map Bracket.min = some 0) ∧
    (∀ v : ℚ, 0 ≤ v →
      (brackets .income).countP (fun b => b.matches v) = 1 ∧
      (brackets .population).countP (fun b => b.matches v) = 1) ∧
    (∀ v : ℚ, 0 ≤ v → v < 100 →
      (brackets .literacy).countP (fun b => b.matches v) = 1) ∧
    (brackets .income).getLast?.map Bracket.max = some none ∧
    (brackets .population).getLast?.map Bracket.max = some none ∧
    (brackets .literacy).getLast?.map Bracket.max = some (some 100) := by
  refine ⟨?_, ?_, ?_, by decide, by decide, by decide⟩
  · intro m
    cases m <;> exact ⟨by simp [brackets, List.chain'_cons], by decide⟩
  · intro v h0
    exact ⟨countP_income v h0, countP_population v h0⟩
  · intro v h0 h100
    exact countP_literacy v h0 h100

/-- Witness for the amended C3 at the concrete value 42: it matches exactly
one income bracket. -/
theorem brackets_partition_witness :
    (brackets .income).countP (fun b => b.matches 42) = 1 :=
  (brackets_partition.2.1 42 (by norm_num)).1

/-- C4 counterexample: area X has a table but no vector for the key
female_age19_35.  The Bracket Classifier counts it in no bracket at all
(all four counts are 0, not 1 in the lowest bracket), and the KPI Aggregator
does not complete on that key instead of treating the area as zero. -/
theorem missing_area_not_zero_filled :
    pieCounts [⟨"X", "X Area"⟩]
        [("X", [("all_all", ⟨80, 50000, 300⟩)])] "female_age19_35" .literacy
      = [0, 0, 0, 0] ∧
    kpis [("X", [("all_all", ⟨80, 50000, 300⟩)])] "female_age19_35" .literacy
      = none := by
  decide

/-- Mapping an association list over `Option` fails as soon as one element
fails. -/
lemma mapM_none_of_mem {α β : Type} {f : α → Option β} {l : List α} {x : α}
    (hx : x ∈ l) (hfx : f x = none) : l.mapM f = none := by
  rw [← List.mapM'_eq_mapM]
  induction l with
  | nil => cases hx
  | cons a l ih =>
    rcases List.mem_cons.mp hx with rfl | hx'
    · simp [List.mapM', hfx]
    · cases hfa : f a <;> simp [List.mapM', hfa, ih hx']

/-- Looking up the key just written returns the written value. -/
lemma objGet_objSet_self {α : Type} (l : List (String × α)) (k : String)
    (v : α) : objGet (objSet l k v) k = some v := by
  induction l with
  | nil => simp [objSet, objGet, List.find?]
  | cons p l ih =>
    by_cases h : p.1 = k
    · simp [objSet, objGet, List.find?, h]
    · have hb : (p.1 == k) = false := beq_eq_false_iff_ne.mpr h
      simpa [objSet, objGet, List.find?, hb] using ih

/-- Writing one key leaves the lookup of any other key unchanged. -/
lemma objGet_objSet_ne {α : Type} (l : List (String × α)) (k k' : String)
    (v : α) (h : k' ≠ k) : objGet (objSet l k v) k' = objGet l k' := by
  have hb : (k == k') = false := beq_eq_false_iff_ne.mpr (Ne.symm h)
  induction l with
  | nil => simp [objSet, objGet, List.find?, hb]
  | cons p l ih =>
    by_cases hp : p.1 = k
    · simp [objSet, objGet, List.find?, hp, hb]
    · have hpb : (p.1 == k) = false := beq_eq_false_iff_ne.mpr hp
      by_cases hp' : p.1 = k'
      · simp [objSet, objGet, List.find?, hpb, hp', h]
      · have hpb' : (p.1 == k') = false := beq_eq_false_iff_ne.mpr hp'
        simpa [objSet, objGet, List.find?, hpb, hpb'] using ih

/-- The generation fold of part_000 defines every area id it visits plus
whatever the accumulator already defined. -/
lemma foldl_objSet_isSome (ps : List (ℕ × String))
    (acc : List (String × MetricValues)) (id : String)
    (h : (objGet acc id).isSome = true ∨ id ∈ ps.map Prod.snd) :
    (objGet (ps.foldl (fun dm p => objSet dm p.2 (mkVec p.1)) acc) id).isSome
      = true := by
  induction ps generalizing acc with
  | nil =>
    rcases h with h | h
    · exact h
    · cases h
  | cons p ps ih =>
    apply ih
    rcases h with h | h
    · left
      by_cases hk : id = p.2
      · subst hk
        simp [objGet_objSet_self]
      · rwa [objGet_objSet_ne _ _ _ _ hk]
    · rw [List.map_cons] at h
      rcases List.mem_cons.mp h with hk | hk
      · left
        subst hk
        simp [objGet_objSet_self]
      · right
        exact hk

/-- Every id of the generated part_000 table is present in the table. -/
lemma generateSeeded_mem_isSome {L : List String} {id : String} (h : id ∈ L) :
    (objGet (generateSeeded L) id).isSome = true := by
  apply foldl_objSet_isSome
  right
  simpa [List.enum_map_snd] using h

/-- C4 (amended): an area with no metric vector for the active key is
excluded by the Bracket Classifier entirely, counted in no bracket rather
than as zero in the lowest one; the KPI Aggregator performs an unguarded
lookup and does not complete on a repository containing such an area; and
the only missing-id diagnostic in the sources, the part_000 log, never
records anything, because the generated table covers every area id. -/
theorem missing_area_excluded (fs1 fs2 : List Feature) (f : Feature)
    (md : MetricTable) (key : String) (m : Metric)
    (hf : featureValue md key m f = none)
    (a : String) (ad : AreaData) (ha : (a, ad) ∈ md)
    (hk : objGet ad key = none) :
    pieCounts (fs1 ++ f :: fs2) md key m = pieCounts (fs1 ++ fs2) md key m ∧
    kpis md key m = none ∧
    ∀ features : List Feature, missingIds features = [] := by
  refine ⟨?_, ?_, ?_⟩
  · simp [pieCounts, List.foldl_append, hf]
  · have hg : gatherValues md key m = none := by
      show List.mapM _ md = none
      apply mapM_none_of_mem ha
      simp [hk]
    simp [kpis, hg]
  · intro features
    rw [missingIds, List.map_eq_nil_iff, List.filter_eq_nil_iff]
    intro f' hf'
    have hmem : f'.id ∈ features.map (·.id) := List.mem_map_of_mem _ hf'
    obtain ⟨x, hx⟩ :=
      Option.isSome_iff_exists.mp (generateSeeded_mem_isSome hmem)
    simp [hx]

/-- Witness for the amended C4 on a concrete two-area state: dropping the
key-less area X from the feature list does not change the bracket counts,
and the aggregate on that repository does not complete. -/
theorem missing_area_excluded_witness :
    pieCounts [⟨"X", "X Area"⟩, ⟨"Y", "Y Area"⟩]
        [("X", [("all_all", ⟨80, 50000, 300⟩)]),
         ("Y", [("female_age19_35", ⟨65, 40000, 200⟩)])]
        "female_age19_35" .literacy
      = pieCounts [⟨"Y", "Y Area"⟩]
        [("X", [("all_all", ⟨80, 50000, 300⟩)]),
         ("Y", [("female_age19_35", ⟨65, 40000, 200⟩)])]
        "female_age19_35" .literacy ∧
    kpis [("X", [("all_all", ⟨80, 50000, 300⟩)]),
          ("Y", [("female_age19_35", ⟨65, 40000, 200⟩)])]
        "female_age19_35" .literacy = none := by
  have h := missing_area_excluded [] [⟨"Y", "Y Area"⟩] ⟨"X", "X Area"⟩
    [("X", [("all_all", ⟨80, 50000, 300⟩)]),
     ("Y", [("female_age19_35", ⟨65, 40000, 200⟩)])]
    "female_age19_35" .literacy (by decide)
    "X" [("all_all", ⟨80, 50000, 300⟩)] (by decide) (by decide)
  exact ⟨h.1, h.2.1⟩

/-- The descending comparator of `barData` is transitive. -/
lemma cmpDesc_trans : ∀ a b c : String × ℚ,
    decide (b.2 ≤ a.2) → decide (c.2 ≤ b.2) → decide (c.2 ≤ a.2) := by
  intro a b c h1 h2
  simp only [decide_eq_true_eq] at *
  exact le_trans h2 h1

/-- The descending comparator of `barData` is total. -/
lemma cmpDesc_total : ∀ a b : String × ℚ,
    decide (b.2 ≤ a.2) || decide (a.2 ≤ b.2) := by
  intro a b
  simpa using le_total b.2 a.2

/-- C7: the Rank Builder output is sorted by value in descending order, is a
permutation of exactly the entries whose value is defined (areas with an
absent value are excluded entirely), and is stable: any two present entries
that appear in catalog order with equal values appear in the same order in
the ranked output. -/
theorem barData_spec (fs : List Feature) (md : MetricTable) (key : String)
    (m : Metric) :
    (barData fs md key m).Pairwise (fun a b : String × ℚ => b.2 ≤ a.2) ∧
    (barData fs md key m).Perm (presentEntries fs md key m) ∧
    ∀ a b : String × ℚ, List.Sublist [a, b] (presentEntries fs md key m) →
      a.2 = b.2 → List.Sublist [a, b] (barData fs md key m) := by
  refine ⟨?_, ?_, ?_⟩
  · have h := List.sorted_mergeSort
      cmpDesc_trans cmpDesc_total (presentEntries fs md key m)
    exact h.imp (fun hab => by simpa using hab)
  · exact List.mergeSort_perm _ _
  · intro a b hsub heq
    exact List.sublist_mergeSort cmpDesc_trans cmpDesc_total
      (List.pairwise_pair.mpr (by simp [heq])) hsub

/-- Witness for C7 on a concrete three-area state with a duplicate value:
the two equal-valued areas A and C stay in catalog order in the output. -/
theorem barData_spec_witness :
    List.Sublist [("A Area", (5 : ℚ)), ("C Area", 5)]
      (barData [⟨"A", "A Area"⟩, ⟨"B", "B Area"⟩, ⟨"C", "C Area"⟩]
        [("A", [("all_all", ⟨5, 5, 5⟩)]),
         ("B", [("all_all", ⟨7, 7, 7⟩)]),
         ("C", [("all_all", ⟨5, 5, 5⟩)])]
        "all_all" .literacy) :=
  (barData_spec _ _ _ .literacy).2.2 ("A Area", 5) ("C Area", 5)
    (by decide) rfl

/-- The running-minimum fold behind `Math.min(...values)` returns an element
of the list that is a lower bound of all of it. -/
lemma foldl_min_spec (v : ℚ) (l : List ℚ) :
    l.foldl min v ∈ v :: l ∧ ∀ x ∈ v :: l, l.foldl min v ≤ x := by
  induction l generalizing v with
  | nil => simp
  | cons a l ih =>
    obtain ⟨hmem, hle⟩ := ih (min v a)
    simp only [List.foldl_cons]
    constructor
    · rcases List.mem_cons.mp hmem with h | h
      · rcases min_choice v a with h' | h' <;> rw [h, h']
        · exact List.mem_cons_self _ _
        · exact List.mem_cons_of_mem _ (List.mem_cons_self _ _)
      · exact List.mem_cons_of_mem _ (List.mem_cons_of_mem _ h)
    · intro x hx
      rcases List.mem_cons.mp hx with rfl | hx'
      · exact le_trans (hle _ (List.mem_cons_self _ _)) (min_le_left _ _)
      · rcases List.mem_cons.mp hx' with rfl | hx''
        · exact le_trans (hle _ (List.mem_cons_self _ _)) (min_le_right _ _)
        · exact hle _ (List.mem_cons_of_mem _ hx'')

/-- The running-maximum fold behind `Math.max(...values)` returns an element
of the list that is an upper bound of all of it. -/
lemma foldl_max_spec (v : ℚ) (l : List ℚ) :
    l.foldl max v ∈ v :: l ∧ ∀ x ∈ v :: l, x ≤ l.foldl max v := by
  induction l generalizing v with
  | nil => simp
  | cons a l ih =>
    obtain ⟨hmem, hle⟩ := ih (max v a)
    simp only [List.foldl_cons]
    constructor
    · rcases List.mem_cons.mp hmem with h | h
      · rcases max_choice v a with h' | h' <;> rw [h, h']
        · exact List.mem_cons_self _ _
        · exact List.mem_cons_of_mem _ (List.mem_cons_self _ _)
      · exact List.mem_cons_of_mem _ (List.mem_cons_of_mem _ h)
    · intro x hx
      rcases List.mem_cons.mp hx with rfl | hx'
      · exact le_trans (le_max_left _ _) (hle _ (List.mem_cons_self _ _))
      · rcases List.mem_cons.mp hx' with rfl | hx''
        · exact le_trans (le_max_right _ _) (hle _ (List.mem_cons_self _ _))
        · exact hle _ (List.mem_cons_of_mem _ hx'')

/-- C8: on a non-empty gathered value list the aggregate average is the
arithmetic mean rounded to two decimal digits (so an integer multiple of
1/100) for literacy and income, additionally floored to an integer for
population; the minimum and maximum are exact, unrounded extrema: elements
of the gathered list bounding all of it. -/
theorem kpis_policy (md : MetricTable) (key : String) (m : Metric)
    (vs : List ℚ) (hg : gatherValues md key m = some vs) (hne : vs ≠ []) :
    ∃ r : Kpis, kpis md key m = some r ∧
      (m ≠ .population →
        r.average = .num (round2 (vs.sum / vs.length)) ∧
        ∃ n : ℤ, r.average = .num ((n : ℚ) / 100)) ∧
      (m = .population →
        r.average = .num ⌊round2 (vs.sum / vs.length)⌋ ∧
        ∃ n : ℤ, r.average = .num (n : ℚ)) ∧
      (∃ q : ℚ, r.min = .num q ∧ q ∈ vs ∧ ∀ x ∈ vs, q ≤ x) ∧
      (∃ q : ℚ, r.max = .num q ∧ q ∈ vs ∧ ∀ x ∈ vs, x ≤ q) := by
  rcases vs with _ | ⟨v, vs'⟩
  · exact absurd rfl hne
  refine ⟨{ average := if m = .population then jsFloor (jsAvg (v :: vs'))
              else jsAvg (v :: vs'),
            min := jsMin (v :: vs'), max := jsMax (v :: vs') },
    by rw [kpis, hg]; rfl, ?_, ?_, ?_, ?_⟩
  · intro hm
    refine ⟨?_, ⟨⌊(v :: vs').sum / (v :: vs').length * 100 + 1 / 2⌋, ?_⟩⟩ <;>
      simp [jsAvg, hm, round2]
  · intro hm
    subst hm
    refine ⟨?_, ⟨⌊round2 ((v :: vs').sum / (v :: vs').length)⌋, ?_⟩⟩ <;>
      simp [jsAvg, jsFloor]
  · obtain ⟨hmem, hle⟩ := foldl_min_spec v vs'
    exact ⟨vs'.foldl min v, by simp [jsMin], hmem, hle⟩
  · obtain ⟨hmem, hle⟩ := foldl_max_spec v vs'
    exact ⟨vs'.foldl max v, by simp [jsMax], hmem, hle⟩

/-- Witness for C8 on the three-area literacy fixture {65, 82, 91}: the
instantiated conclusion, with hypotheses discharged by computation (the
average is 79.33, the minimum 65 and the maximum 91). -/
theorem kpis_policy_witness :
    ∃ r : Kpis,
      kpis [("a", [("all_all", ⟨65, 1, 1⟩)]), ("b", [("all_all", ⟨82, 1, 1⟩)]),
        ("c", [("all_all", ⟨91, 1, 1⟩)])] "all_all" .literacy = some r ∧
      (Metric.literacy ≠ .population →
        r.average = .num (round2 (([65, 82, 91] : List ℚ).sum /
          ([65, 82, 91] : List ℚ).length)) ∧
        ∃ n : ℤ, r.average = .num ((n : ℚ) / 100)) ∧
      (Metric.literacy = .population →
        r.average = .num ⌊round2 (([65, 82, 91] : List ℚ).sum /
          ([65, 82, 91] : List ℚ).length)⌋ ∧
        ∃ n : ℤ, r.average = .num (n : ℚ)) ∧
      (∃ q : ℚ, r.min = .num q ∧ q ∈ ([65, 82, 91] : List ℚ) ∧
        ∀ x ∈ ([65, 82, 91] : List ℚ), q ≤ x) ∧
      (∃ q : ℚ, r.max = .num q ∧ q ∈ ([65, 82, 91] : List ℚ) ∧
        ∀ x ∈ ([65, 82, 91] : List ℚ), x ≤ q) :=
  kpis_policy
    [("a", [("all_all", ⟨65, 1, 1⟩)]), ("b", [("all_all", ⟨82, 1, 1⟩)]),
      ("c", [("all_all", ⟨91, 1, 1⟩)])] "all_all" .literacy
    [65, 82, 91] (by decide) (by decide)

/-- Later insertions of other keys do not disturb an earlier lookup. -/
lemma foldl_objSet_preserve (ps : List (ℕ × String))
    (acc : List (String × MetricValues)) (id : String)
    (h : id ∉ ps.map Prod.snd) :
    objGet (ps.foldl (fun dm p => objSet dm p.2 (mkVec p.1)) acc) id
      = objGet acc id := by
  induction ps generalizing acc with
  | nil => rfl
  | cons p ps ih =>
    rw [List.map_cons] at h
    rw [List.foldl_cons, ih _ (fun hm => h (List.mem_cons_of_mem _ hm)),
      objGet_objSet_ne _ _ _ _
        (fun he => h (by rw [he]; exact List.mem_cons_self _ _))]

/-- The keys after a write are the old keys plus the written key. -/
lemma mem_objSet_keys {α : Type} (l : List (String × α)) (k k' : String)
    (v : α) :
    k' ∈ (objSet l k v).map Prod.fst ↔ k' ∈ l.map Prod.fst ∨ k' = k := by
  induction l with
  | nil => simp [objSet]
  | cons p l ih =>
    by_cases hp : p.1 = k
    · simp [objSet, hp]
      tauto
    · have hpb : (p.1 == k) = false := beq_eq_false_iff_ne.mpr hp
      simp [objSet, hpb, ih]
      tauto

/-- The generation fold of part_000, started at index `n`, stores exactly
`mkVec (n + i)` at the i-th area of a duplicate-free area list. -/
lemma objGet_generateSeeded_aux :
    ∀ (L : List String) (n : ℕ) (acc : List (String × MetricValues)),
      L.Nodup → ∀ (i : ℕ) (hi : i < L.length),
      L.get ⟨i, hi⟩ ∉ acc.map Prod.fst →
      objGet ((L.enumFrom n).foldl (fun dm p => objSet dm p.2 (mkVec p.1)) acc)
        (L.get ⟨i, hi⟩) = some (mkVec (n + i)) := by
  intro L
  induction L with
  | nil =>
    intro n acc _ i hi
    exact absurd hi (by simp)
  | cons a L ih =>
    intro n acc hnd i hi hacc
    obtain ⟨haL, hndL⟩ := List.nodup_cons.mp hnd
    rw [List.enumFrom_cons, List.foldl_cons]
    cases i with
    | zero =>
      show objGet _ a = _
      rw [foldl_objSet_preserve _ _ _ (by simpa [List.enumFrom_map_snd] using haL),
        objGet_objSet_self]
      simp
    | succ j =>
      have hj : j < L.length := by simpa using hi
      show objGet _ (L.get ⟨j, hj⟩) = _
      have hkey : L.get ⟨j, hj⟩ ∉ (objSet acc a (mkVec n)).map Prod.fst := by
        intro hm
        rcases (mem_objSet_keys _ _ _ _).mp hm with hm | hm
        · exact hacc hm
        · exact haL (hm ▸ L.get_mem _ _)
      have := ih (n + 1) (objSet acc a (mkVec n)) hndL j hj hkey
      have heq : n + 1 + j = n + (j + 1) := by omega
      rw [heq] at this
      exact this

/-- C9: synthetic population in the seeded part_000 mode is a function of
the ordered position of each area alone: for any two duplicate-free area
lists, the vector stored at position i is `mkVec i` in both, so two runs
over the same ordered area list (and even over different lists) produce
identical vectors at identical positions. -/
theorem generateSeeded_deterministic (L1 L2 : List String)
    (h1 : L1.Nodup) (h2 : L2.Nodup) (i : ℕ)
    (hi1 : i < L1.length) (hi2 : i < L2.length) :
    objGet (generateSeeded L1) (L1.get ⟨i, hi1⟩) = some (mkVec i) ∧
    objGet (generateSeeded L2) (L2.get ⟨i, hi2⟩) = some (mkVec i) ∧
    objGet (generateSeeded L1) (L1.get ⟨i, hi1⟩) =
      objGet (generateSeeded L2) (L2.get ⟨i, hi2⟩) := by
  have e1 := objGet_generateSeeded_aux L1 0 [] h1 i hi1 (by simp)
  have e2 := objGet_generateSeeded_aux L2 0 [] h2 i hi2 (by simp)
  rw [Nat.zero_add] at e1 e2
  exact ⟨e1, e2, e1.trans e2.symm⟩

/-- Witness for C9: the second area of the run over [a, b] receives the same
vector as the second area of the run over [x, y, z]. -/
theorem generateSeeded_deterministic_witness :
    objGet (generateSeeded ["a", "b"]) "b" =
      objGet (generateSeeded ["x", "y", "z"]) "y" :=
  (generateSeeded_deterministic ["a", "b"] ["x", "y", "z"]
    (by decide) (by decide) 1 (by decide) (by decide)).2.2

/-- `toFixed(1)` rounding keeps a value of [60, 95) inside [60, 95]. -/
lemma round1_bounds {x : ℚ} (h1 : 60 ≤ x) (h2 : x < 95) :
    60 ≤ round1 x ∧ round1 x ≤ 95 := by
  have hl : (600 : ℤ) ≤ ⌊x * 10 + 1 / 2⌋ := Int.le_floor.mpr (by push_cast; linarith)
  have hu : ⌊x * 10 + 1 / 2⌋ ≤ 950 := by
    have h951 : ⌊x * 10 + 1 / 2⌋ < (951 : ℤ) :=
      Int.floor_lt.mpr (by push_cast; linarith)
    omega
  constructor
  · rw [round1]
    have hc : (600 : ℚ) ≤ (⌊x * 10 + 1 / 2⌋ : ℚ) := by exact_mod_cast hl
    linarith
  · rw [round1]
    have hc : ((⌊x * 10 + 1 / 2⌋ : ℚ)) ≤ 950 := by exact_mod_cast hu
    linarith

/-- Any metric vector built from a literacy draw in [60, 95) and floored
income and population draws in their generation intervals satisfies the
claimed range bounds. -/
lemma inRange_fields {x y z : ℚ} (hx : 60 ≤ x) (hx' : x < 95)
    (hy : 20000 ≤ y) (hy' : y < 100000)
    (hz : 5000 ≤ z) (hz' : z < 1000000) :
    InRange ⟨round1 x, (⌊y⌋ : ℚ), (⌊z⌋ : ℚ)⟩ := by
  obtain ⟨ha, hb⟩ := round1_bounds hx hx'
  have gi : (20000 : ℤ) ≤ ⌊y⌋ := Int.le_floor.mpr (by push_cast; linarith)
  have gi' : ⌊y⌋ < 100000 := Int.floor_lt.mpr (by push_cast; linarith)
  have gp : (5000 : ℤ) ≤ ⌊z⌋ := Int.le_floor.mpr (by push_cast; linarith)
  have gp' : ⌊z⌋ < 1000000 := Int.floor_lt.mpr (by push_cast; linarith)
  simp only [InRange]
  exact ⟨ha, hb, by linarith, ⟨⌊y⌋, rfl, gi, gi'⟩, ⟨⌊z⌋, rfl, gp, gp'⟩,
    by linarith,
    by exact_mod_cast le_trans (by norm_num : (0 : ℤ) ≤ 20000) gi,
    by exact_mod_cast le_trans (by norm_num : (0 : ℤ) ≤ 5000) gp⟩

/-- C10: every synthetically generated metric vector satisfies the range
bounds, in both generation modes: literacy lies in [60, 95] (in particular
strictly below 100), income is an integer in [20000, 100000), population is
an integer in [5000, 1000000), and all three fields are non-negative.  The
App.tsx draws are the oracle inputs r1, r2, r3 of `Math.random()`, whose
contract gives values in [0, 1); the part_000 vector at any index satisfies
the same bounds unconditionally. -/
theorem syntheticVec_inRange (r1 r2 r3 : ℚ) (h1 : 0 ≤ r1) (h1' : r1 < 1)
    (h2 : 0 ≤ r2) (h2' : r2 < 1) (h3 : 0 ≤ r3) (h3' : r3 < 1) (idx : ℕ) :
    InRange (mkRandomVec r1 r2 r3) ∧ InRange (mkVec idx) := by
  constructor
  · refine inRange_fields ?_ ?_ ?_ ?_ ?_ ?_ <;> rw [getRandom] <;> nlinarith
  · have hf0 : (0 : ℚ) ≤
        ((((idx * 17 + 23) * 9301 + 49297) % 233280 : ℕ) : ℚ) / 233280 :=
      div_nonneg (Nat.cast_nonneg _) (by norm_num)
    have hf1 : ((((idx * 17 + 23) * 9301 + 49297) % 233280 : ℕ) : ℚ) / 233280
        < 1 := by
      rw [div_lt_one (by norm_num)]
      exact_mod_cast Nat.mod_lt _ (by norm_num)
    refine inRange_fields ?_ ?_ ?_ ?_ ?_ ?_ <;> rw [pseudoRandom] <;> nlinarith

/-- Witness for C10 at the concrete draws 0, 0, 0 and area index 0. -/
theorem syntheticVec_inRange_witness :
    InRange (mkRandomVec 0 0 0) ∧ InRange (mkVec 0) :=
  syntheticVec_inRange 0 0 0 (by decide) (by decide) (by decide)
    (by decide) (by decide) (by decide) 0

end Dashboard
